import Mathlib

/-!
Shallow embedding of the upgradeUpstox signal pipeline.

Sources embedded (field and function names follow the Python source):
- app/analytics/pattern_detector.py    (analyze_oi_pattern)
- app/analytics/greeks_analyzer.py     (analyze_greeks_momentum)
- app/analytics/imbalance_detector.py  (analyze_order_book_imbalance)
- app/analytics/whale_detector.py      (analyze_whale_activity)
- app/analytics/sentiment_analyzer.py  (analyze_market_sentiment)
- app/workers/signal_generator.py      (SignalGenerator.start control flow)
- app/services/ingestion.py            (update_subscriptions, subscribe_initial)

Modelling conventions: Python floats are modelled as exact rationals;
NumPy integer columns as Int.  Python indexing arr[0] / arr[-1] raises on an
empty array; it is modelled totally by List.headD / List.getLastD with
default 0, and every theorem that depends on a real first/last element
carries the length hypothesis under which the two coincide.
-/

namespace UpgradeUpstox

/-- Sign of a rational, as np.sign: 1 for positive, -1 for negative, 0 for 0. -/
def qsign (q : ℚ) : ℚ := if 0 < q then 1 else if q < 0 then -1 else 0

/-- Consecutive differences of an integer column, as np.diff:
for input [a0, a1, ..., an] it returns [a1 - a0, ..., an - a(n-1)]. -/
def listDiffs (l : List ℤ) : List ℤ := List.zipWith (fun a b => b - a) l l.tail

/-- Maximum of an integer list, with np.max-style guard value 0 for the empty
list (the Python callers guard emptiness separately). -/
def listMaxD (l : List ℤ) : ℤ :=
  match l with
  | [] => 0
  | h :: t => t.foldl max h

/-- Minimum of an integer list, guard value 0 for the empty list. -/
def listMinD (l : List ℤ) : ℤ :=
  match l with
  | [] => 0
  | h :: t => t.foldl min h

/-- Arithmetic mean of a rational list, as np.mean (sum / length). -/
def listMean (l : List ℚ) : ℚ := l.foldl (· + ·) 0 / (l.length : ℚ)

/-- The columnar arrays produced by MarketDataProcessor.get_arrays for one
window, restricted to the columns the five analyzers read (the remaining
columns cp, atp, ltt, vega, rho and the price sides of the depth matrices are
never read by any analyzer under verification).  The (N x 30) depth quantity
matrices bid_qtys / ask_qtys are modelled as the flat list of their entries:
numpy size > 0 is list nonemptiness and np.max over the matrix is the list
maximum. -/
structure ArrayBundle where
  ltp : List ℚ
  oi : List ℤ
  volume : List ℤ
  tbq : List ℤ
  tsq : List ℤ
  delta : List ℚ
  gamma : List ℚ
  theta : List ℚ
  iv : List ℚ
  bid_qtys : List ℤ
  ask_qtys : List ℤ
deriving DecidableEq

/-- Result dictionary of analyze_oi_pattern (pattern_detector.py). -/
structure PatternResult where
  pattern : String
  signal : String
  is_panic : Bool
  price_change : ℚ
  oi_change : ℤ
  volume_change : ℤ
  ltp : ℚ
  price_change_pct : ℚ
  delta_change : ℚ
deriving DecidableEq

/-- analyze_oi_pattern (pattern_detector.py lines 4-97).  Parameters are the
Python keyword parameters in source order; the source defaults are
oi_threshold 500, volume_threshold 1000, min_oi_drop (-5000),
min_price_jump_pct 1.0, min_delta_change 0.05 (unused by the body, kept for
signature fidelity), min_volume_multiplier 2.0.  The branch chain mirrors the
source: Panic first, then Low Volume, then Churn, then the directional
patterns, whose inner fallthrough keeps the initial pattern "Neutral",
signal "Churn". -/
def analyze_oi_pattern (arrays : ArrayBundle)
    (oi_threshold volume_threshold min_oi_drop : ℤ)
    (min_price_jump_pct min_delta_change min_volume_multiplier : ℚ) :
    PatternResult :=
  if arrays.ltp.length < 2 then
    ⟨"Insufficient Data", "Neutral", false, 0, 0, 0, 0, 0, 0⟩
  else
    let _ := min_delta_change
    let ltp_start := arrays.ltp.headD 0
    let ltp_end := arrays.ltp.getLastD 0
    let price_change := ltp_end - ltp_start
    let price_change_pct := if ltp_start > 0 then price_change / ltp_start * 100 else 0
    let oi_change := arrays.oi.getLastD 0 - arrays.oi.headD 0
    let volume_change := arrays.volume.getLastD 0 - arrays.volume.headD 0
    let delta_change :=
      if 2 ≤ arrays.delta.length then arrays.delta.getLastD 0 - arrays.delta.headD 0 else 0
    let psi : String × String × Bool :=
      if oi_change < min_oi_drop ∧ price_change_pct > min_price_jump_pct ∧
          (volume_change : ℚ) > (volume_threshold : ℚ) * min_volume_multiplier then
        ("Panic (Short Covering)", "🚀 PANIC BUY", true)
      else if volume_change < volume_threshold then
        ("Low Volume", "Skip", false)
      else if |oi_change| ≤ oi_threshold then
        ("Neutral", "Churn", false)
      else if price_change > 0 then
        (if oi_change > oi_threshold then ("Long Buildup", "Bullish", false)
         else if oi_change < -oi_threshold then ("Short Covering", "🔥 Very Bullish", false)
         else ("Neutral", "Churn", false))
      else if price_change < 0 then
        (if oi_change > oi_threshold then ("Short Buildup", "Bearish", false)
         else if oi_change < -oi_threshold then ("Long Unwinding", "Bearish", false)
         else ("Neutral", "Churn", false))
      else ("Neutral", "Churn", false)
    ⟨psi.1, psi.2.1, psi.2.2, price_change, oi_change, volume_change, ltp_end,
      price_change_pct, delta_change⟩

/-- Result dictionary of analyze_greeks_momentum (greeks_analyzer.py). -/
structure GreeksResult where
  delta_velocity : ℚ
  gamma_acceleration : ℚ
  iv_velocity : ℚ
  theta_acceleration : ℚ
  momentum_score : ℚ
  momentum_type : String
  signal : String
deriving DecidableEq

/-- The default result dictionary of analyze_greeks_momentum
(greeks_analyzer.py lines 21-29): every numeric field 0.0, including
momentum_score, with type "Neutral" and signal "WAIT". -/
def greeksDefaultResult : GreeksResult := ⟨0, 0, 0, 0, 0, "Neutral", "WAIT"⟩

/-- analyze_greeks_momentum (greeks_analyzer.py lines 4-116).  Thresholds
HIGH_DELTA_VELOCITY = 0.001, HIGH_GAMMA_SPIKE = 0.0001,
HIGH_IV_VELOCITY = 0.0005.  Note the asymmetry of the source: the delta and
gamma contributions have an interpolation else-branch, the iv contribution
does not (lines 79-80 carry no else). -/
def analyze_greeks_momentum (arrays : ArrayBundle) (duration_seconds : ℚ) :
    GreeksResult :=
  if arrays.delta.length < 2 then greeksDefaultResult
  else
    let delta_velocity := (arrays.delta.getLastD 0 - arrays.delta.headD 0) / duration_seconds
    let gamma_acceleration := (arrays.gamma.getLastD 0 - arrays.gamma.headD 0) / duration_seconds
    let iv_velocity := (arrays.iv.getLastD 0 - arrays.iv.headD 0) / duration_seconds
    let theta_acceleration := (arrays.theta.getLastD 0 - arrays.theta.headD 0) / duration_seconds
    let score0 : ℚ := 50
    let score1 :=
      if |delta_velocity| ≥ 1/1000 then score0 + 20 * qsign delta_velocity
      else score0 + (delta_velocity / (1/1000)) * 20
    let score2 :=
      if |gamma_acceleration| ≥ 1/10000 then score1 + 15 * qsign gamma_acceleration
      else score1 + (gamma_acceleration / (1/10000)) * 15
    let score3 :=
      if |iv_velocity| ≥ 5/10000 then score2 + 10 * qsign iv_velocity
      else score2
    let score := max 0 (min 100 score3)
    let ts : String × String :=
      if score ≥ 80 then ("Explosive Bullish", "STRONG BUY")
      else if score ≥ 65 then ("Strong Bullish", "BUY")
      else if score ≥ 55 then ("Moderate Bullish", "BUY/WAIT")
      else if score ≤ 20 then ("Explosive Bearish", "STRONG SELL")
      else if score ≤ 35 then ("Strong Bearish", "SELL")
      else if score ≤ 45 then ("Moderate Bearish", "SELL/WAIT")
      else ("Neutral", "WAIT")
    ⟨delta_velocity, gamma_acceleration, iv_velocity, theta_acceleration, score,
      ts.1, ts.2⟩

/-- Delta contribution of the momentum score as the source computes it
(greeks_analyzer.py lines 66-69): full signed weight 20 at or above the
threshold, linear interpolation below. -/
def deltaContrib (r : ℚ) : ℚ :=
  if |r| ≥ 1/1000 then 20 * qsign r else (r / (1/1000)) * 20

/-- Gamma contribution as the source computes it (lines 73-76): full signed
weight 15 at or above the threshold, linear interpolation below. -/
def gammaContrib (r : ℚ) : ℚ :=
  if |r| ≥ 1/10000 then 15 * qsign r else (r / (1/10000)) * 15

/-- Iv contribution as the source computes it (lines 79-80): full signed
weight 10 at or above the threshold and 0 below it - the source has no
interpolation else-branch for iv. -/
def ivContrib (r : ℚ) : ℚ :=
  if |r| ≥ 5/10000 then 10 * qsign r else 0

/-- Iv contribution as the specification describes it: linearly interpolated
below the threshold exactly like delta and gamma.  Stated from the spec
wording for comparison with ivContrib, which is what the source computes. -/
def ivContribSpec (r : ℚ) : ℚ :=
  if |r| ≥ 5/10000 then 10 * qsign r else (r / (5/10000)) * 10

/-- Momentum score as the specification describes it: 50 plus the three
contributions, all linearly interpolated below threshold, clamped to
[0, 100].  Stated from the spec wording for comparison with the score of
analyze_greeks_momentum. -/
def specMomentumScore (arrays : ArrayBundle) (duration_seconds : ℚ) : ℚ :=
  let dv := (arrays.delta.getLastD 0 - arrays.delta.headD 0) / duration_seconds
  let ga := (arrays.gamma.getLastD 0 - arrays.gamma.headD 0) / duration_seconds
  let iv := (arrays.iv.getLastD 0 - arrays.iv.headD 0) / duration_seconds
  max 0 (min 100 (50 + deltaContrib dv + gammaContrib ga + ivContribSpec iv))

/-- Result dictionary of analyze_order_book_imbalance (imbalance_detector.py). -/
structure ImbalanceResult where
  signal : String
  imbalance_ratio : ℚ
  tbq : ℤ
  tsq : ℤ
  ltp : ℚ
deriving DecidableEq

/-- analyze_order_book_imbalance (imbalance_detector.py lines 4-57).  Takes
the latest tbq / tsq / ltp values; empty tbq or tsq column gives the
"Insufficient Data" sentinel, zero total quantity gives "Neutral" with ratio
0, otherwise ratio = (tbq - tsq) / (tbq + tsq) with the 0.2 band signals. -/
def analyze_order_book_imbalance (arrays : ArrayBundle) : ImbalanceResult :=
  if arrays.tbq.length = 0 ∨ arrays.tsq.length = 0 then
    ⟨"Insufficient Data", 0, 0, 0, 0⟩
  else
    let tbq := arrays.tbq.getLastD 0
    let tsq := arrays.tsq.getLastD 0
    let ltp := if arrays.ltp.length > 0 then arrays.ltp.getLastD 0 else 0
    let total_qty := tbq + tsq
    if total_qty = 0 then ⟨"Neutral", 0, 0, 0, ltp⟩
    else
      let imbalance_ratio : ℚ := ((tbq - tsq : ℤ) : ℚ) / ((total_qty : ℤ) : ℚ)
      let signal :=
        if imbalance_ratio > 1/5 then "Bullish (Bid Heavy)"
        else if imbalance_ratio < -(1/5) then "Bearish (Ask Heavy)"
        else "Neutral"
      ⟨signal, imbalance_ratio, tbq, tsq, ltp⟩

/-- The ArrayBundle with its tbq and tsq columns exchanged, for the
antisymmetry statement ratio(tbq, tsq) = -ratio(tsq, tbq). -/
def swapQty (arrays : ArrayBundle) : ArrayBundle :=
  ⟨arrays.ltp, arrays.oi, arrays.volume, arrays.tsq, arrays.tbq, arrays.delta,
    arrays.gamma, arrays.theta, arrays.iv, arrays.bid_qtys, arrays.ask_qtys⟩

/-- One whale alert dictionary (whale_detector.py). -/
structure WhaleAlert where
  whale_type : String
  alert_type : String
  alert_value : ℚ
  signal : String
deriving DecidableEq

/-- Whale size band for a positive OI jump (whale_detector.py lines 28-32):
default "Small Whale", overridden Mega / Large / Medium in that order. -/
def whaleBandJump (m : ℤ) : String :=
  if m ≥ 20000 then "Mega Whale"
  else if m ≥ 10000 then "Large Whale"
  else if m ≥ 5000 then "Medium Whale"
  else "Small Whale"

/-- Whale size band for a negative OI drop (whale_detector.py lines 42-46). -/
def whaleBandDrop (m : ℤ) : String :=
  if m ≤ -20000 then "Mega Whale"
  else if m ≤ -10000 then "Large Whale"
  else if m ≤ -5000 then "Medium Whale"
  else "Small Whale"

/-- Maximum consecutive OI difference of a bundle (max_oi_jump in
whale_detector.py line 24, with the same guard value 0 for an empty diff
list). -/
def oiMaxJump (arrays : ArrayBundle) : ℤ := listMaxD (listDiffs arrays.oi)

/-- Minimum consecutive OI difference (min_oi_drop, line 25). -/
def oiMinDrop (arrays : ArrayBundle) : ℤ := listMinD (listDiffs arrays.oi)

/-- Mean consecutive volume difference (avg_vol, line 61). -/
def avgVolDiff (arrays : ArrayBundle) : ℚ :=
  listMean ((listDiffs arrays.volume).map (fun z => (z : ℚ)))

/-- Maximum consecutive volume difference (max_vol, line 62). -/
def maxVolDiff (arrays : ArrayBundle) : ℤ := listMaxD (listDiffs arrays.volume)

/-- analyze_whale_activity (whale_detector.py lines 4-94).  Five independent
alert sites, each appending at most once, in source order: OI Jump, OI Drop,
Volume Spike, Bid Wall, Ask Wall.  Thresholds are the source constants
SMALL_WHALE_THRESHOLD = 2000, VOLUME_SPIKE_MULTIPLIER = 10,
ORDER_WALL_THRESHOLD = 50000.  The source's inner len(vol_diffs) > 0 check
is subsumed by the len(volume) >= 2 guard (a length-n column has n-1
consecutive differences). -/
def analyze_whale_activity (arrays : ArrayBundle) : List WhaleAlert :=
  (if 2 ≤ arrays.oi.length ∧ oiMaxJump arrays ≥ 2000 then
      [⟨whaleBandJump (oiMaxJump arrays), "OI Jump", (oiMaxJump arrays : ℚ), "Bullish"⟩]
    else [])
  ++ (if 2 ≤ arrays.oi.length ∧ oiMinDrop arrays ≤ -2000 then
      [⟨whaleBandDrop (oiMinDrop arrays), "OI Drop", (oiMinDrop arrays : ℚ), "Bearish"⟩]
    else [])
  ++ (if 2 ≤ arrays.volume.length ∧ avgVolDiff arrays > 0 ∧
        (maxVolDiff arrays : ℚ) > avgVolDiff arrays * 10 ∧ maxVolDiff arrays > 1000 then
      [⟨"Volume Whale", "Volume Spike", (maxVolDiff arrays : ℚ), "Neutral"⟩]
    else [])
  ++ (if arrays.bid_qtys ≠ [] ∧ listMaxD arrays.bid_qtys ≥ 50000 then
      [⟨"Limit Whale", "Bid Wall", (listMaxD arrays.bid_qtys : ℚ), "Bullish Support"⟩]
    else [])
  ++ (if arrays.ask_qtys ≠ [] ∧ listMaxD arrays.ask_qtys ≥ 50000 then
      [⟨"Limit Whale", "Ask Wall", (listMaxD arrays.ask_qtys : ℚ), "Bearish Resistance"⟩]
    else [])

/-- Whether the first character list is an initial segment of the second. -/
def charsStart : List Char → List Char → Bool
  | _, [] => true
  | [], _ :: _ => false
  | a :: tl, b :: bs => a = b && charsStart tl bs

/-- Whether the second character list occurs contiguously in the first. -/
def charsHave : List Char → List Char → Bool
  | [], needle => charsStart [] needle
  | h :: t, needle => charsStart (h :: t) needle || charsHave t needle

/-- Python substring membership: strIn needle hay is the Python expression
needle in hay. -/
def strIn (needle hay : String) : Bool := charsHave hay.toList needle.toList

/-- One row of a persisted signal history table as read back by the sentiment
analyzer; only the signal string is inspected by the scoring code.  Used for
the patterns, panic and whales groups of get_recent_signals. -/
structure SignalRow where
  signal : String
deriving DecidableEq

/-- One row of the persisted imbalance table; the scoring code reads the
imbalance_ratio field. -/
structure ImbRow where
  imbalance_ratio : ℚ
deriving DecidableEq

/-- One row of the persisted greeks-momentum table; the scoring code reads the
momentum_score field. -/
structure GreeksRow where
  momentum_score : ℚ
deriving DecidableEq

/-- The grouped history dictionary pg_data returned by
PostgresClient.get_recent_signals, restricted to the fields the sentiment
score and label computation reads. -/
structure PGData where
  patterns : List SignalRow
  panic : List SignalRow
  imbalance : List ImbRow
  greeks : List GreeksRow
  whales : List SignalRow
deriving DecidableEq

/-- Python round(x, 2).  Modelled with Mathlib round (half away from zero on
positive halves) in place of Python banker's rounding; the two agree except
at exact half-cent values, which no claim under verification exercises. -/
def round2 (q : ℚ) : ℚ := ((round (q * 100) : ℤ) : ℚ) / 100

/-- Pattern component of the sentiment score (sentiment_analyzer.py lines
26-33): over the latest 5 pattern rows, +10 per signal containing "Bullish"
or "Buy", -10 per signal containing "Bearish" or "Sell". -/
def patternContrib (pg : PGData) : ℤ :=
  (pg.patterns.take 5).foldl
    (fun s p =>
      if strIn "Bullish" p.signal || strIn "Buy" p.signal then s + 10
      else if strIn "Bearish" p.signal || strIn "Sell" p.signal then s - 10
      else s) 0

/-- Panic component (lines 37-46): from the newest panic row, +30 if its
signal contains "Buy", -30 if it contains "Sell". -/
def panicContrib (pg : PGData) : ℚ :=
  match pg.panic with
  | [] => 0
  | p :: _ =>
    if strIn "Buy" p.signal then 30
    else if strIn "Sell" p.signal then -30
    else 0

/-- Imbalance component (lines 48-52): mean imbalance ratio of the recent
rows, scaled by 50. -/
def imbContrib (pg : PGData) : ℚ :=
  if pg.imbalance = [] then 0
  else listMean (pg.imbalance.map (fun r => r.imbalance_ratio)) * 50

/-- Greeks component (lines 56-62): (latest momentum score - 50) * 0.4. -/
def greeksContrib (pg : PGData) : ℚ :=
  match pg.greeks with
  | [] => 0
  | g :: _ => (g.momentum_score - 50) * (4/10)

/-- Whale component (lines 65-77): +15 per alert whose signal contains
"Bullish", -15 per alert whose signal contains "Bearish". -/
def whaleContrib (pg : PGData) : ℤ :=
  pg.whales.foldl
    (fun s w =>
      if strIn "Bullish" w.signal then s + 15
      else if strIn "Bearish" w.signal then s - 15
      else s) 0

/-- Result of analyze_market_sentiment restricted to the fields the claims
under verification read: the label, the reported score and the components
sub-dictionary.  The support/resistance, trade setup, market regime and
insights outputs never feed back into the score or label and are omitted. -/
structure SentimentResult where
  sentiment : String
  sentiment_score : ℚ
  pattern_score : ℤ
  whale_score : ℤ
  imbalance_score : ℚ
deriving DecidableEq

/-- analyze_market_sentiment (sentiment_analyzer.py lines 4-166), score and
label part.  The score accumulates the five components in source order
starting from 0.0, is clamped once to [-100, 100] at line 82, the label is
banded on the clamped score (lines 85-89) and the reported sentiment_score is
round(score, 2) (line 152). -/
def analyze_market_sentiment (pg_data : PGData) (ltp : ℚ) : SentimentResult :=
  let _ := ltp
  let pattern_score := patternContrib pg_data
  let score1 : ℚ := 0 + (pattern_score : ℚ)
  let score2 :=
    match pg_data.panic with
    | [] => score1
    | last_panic :: _ =>
      if strIn "Buy" last_panic.signal then score1 + 30
      else if strIn "Sell" last_panic.signal then score1 - 30
      else score1
  let avg_ratio := listMean (pg_data.imbalance.map (fun r => r.imbalance_ratio))
  let score3 := if pg_data.imbalance = [] then score2 else score2 + avg_ratio * 50
  let score4 :=
    match pg_data.greeks with
    | [] => score3
    | last_greek :: _ => score3 + (last_greek.momentum_score - 50) * (4/10)
  let whale_score := whaleContrib pg_data
  let score5 := score4 + (whale_score : ℚ)
  let score := max (-100) (min 100 score5)
  let sentiment :=
    if score ≥ 60 then "Extreme Bullish 🚀"
    else if score ≥ 20 then "Bullish 🟢"
    else if score ≤ -60 then "Extreme Bearish 🩸"
    else if score ≤ -20 then "Bearish 🔴"
    else "Neutral"
  ⟨sentiment, round2 score, pattern_score, whale_score,
    if pg_data.imbalance ≠ [] then round2 (avg_ratio * 50) else 0⟩

/-- The per-instrument for-loop of SignalGenerator.start as written
(signal_generator.py lines 76-194), over the discovered stream keys of one
cycle.  The first step of the loop body (line 81) evaluates
self.processor.fetch_ticks_range, an attribute MarketDataProcessor never
defines - processor.py defines only fetch_ticks - so the call raises
AttributeError for every instrument; the skip-on-empty continue at lines
83-84 and every analyzer, publish and persist step below it are unreachable.
There is no try/except inside the loop body, so the error escapes the
for-loop carrying the first instrument's key; a cycle that discovered no
streams completes with nothing processed (the continue at lines 70-72). -/
def runCycle : List String → Except String (List String)
  | [] => Except.ok []
  | k :: _ => Except.error k

/-- The minute loop of SignalGenerator.start (lines 44-201), over the stream
key lists the successive cycles discover.  The while loop sits inside a
single try whose except-handler (line 198) logs and falls into finally, which
calls stop: an exception escaping any cycle terminates the loop, so no later
cycle runs.  The result lists the processed instrument keys of the completed
cycles. -/
def runLoop : List (List String) → List (List String)
  | [] => []
  | c :: cs =>
    match runCycle c with
    | Except.ok ks => ks :: runLoop cs
    | Except.error _ => []

/-- The always-subscribed index instrument (ingestion.py line 77). -/
def index_key : String := "NSE_INDEX|Nifty 50"

/-- One subscription control frame sent over the feed websocket
(ingestion.py lines 144-164): guid, method "sub" or "unsub", the optional
mode field (absent on unsubscribe frames) and the carried instrument keys
(sent as a list; a set here because the source materialises list(...) of a
set, whose order is unspecified). -/
structure Frame where
  guid : String
  method : String
  mode : Option String
  instrumentKeys : Finset String
deriving DecidableEq

/-- UpstoxDataManager.update_subscriptions (ingestion.py lines 122-168):
computes keys_to_unsubscribe = active - new, keys_to_subscribe = new -
active, sends an unsub frame when the former is non-empty then a sub frame
(mode full_d30) when the latter is non-empty, and only after both sends
assigns active_option_keys = new_keys_set.  Returned as (frames in send
order, new active set). -/
def update_subscriptions (active_option_keys : Finset String)
    (new_keys_list : List String) (guid : String) :
    List Frame × Finset String :=
  let new_keys_set := new_keys_list.toFinset
  let keys_to_unsubscribe := active_option_keys \ new_keys_set
  let keys_to_subscribe := new_keys_set \ active_option_keys
  ((if keys_to_unsubscribe ≠ ∅ then
      [⟨guid, "unsub", none, keys_to_unsubscribe⟩]
    else [])
   ++ (if keys_to_subscribe ≠ ∅ then
      [⟨guid, "sub", some "full_d30", keys_to_subscribe⟩]
    else []),
   new_keys_set)

/-- UpstoxDataManager.subscribe_initial (ingestion.py lines 244-265): sends
one sub frame (mode full) carrying exactly the index key, then, when the
option key list is non-empty, defers to update_subscriptions with the initial
active set - empty, as set in the constructor (line 78). -/
def subscribe_initial (option_keys : List String) :
    List Frame × Finset String :=
  let indexFrame : Frame := ⟨"whale_hunter_index", "sub", some "full", {index_key}⟩
  if option_keys ≠ [] then
    let r := update_subscriptions ∅ option_keys "whale_hunter_options"
    (indexFrame :: r.1, r.2)
  else ([indexFrame], ∅)

/-- Frames produced by a sequence of update_subscriptions calls threading the
active set, as the running manager performs them. -/
def runUpdates (active : Finset String) : List (List String) → List Frame
  | [] => []
  | t :: ts =>
    let r := update_subscriptions active t "whale_hunter_options"
    r.1 ++ runUpdates r.2 ts

/-- All control frames of one manager run: connection setup via
subscribe_initial followed by any number of dynamic update calls. -/
def managerFrames (option_keys : List String) (updates : List (List String)) :
    List Frame :=
  (subscribe_initial option_keys).1 ++
    runUpdates (subscribe_initial option_keys).2 updates

/-- The oi_change quantity of analyze_oi_pattern (pattern_detector.py line
37): oi[-1] - oi[0]. -/
def oiChange (arrays : ArrayBundle) : ℤ := arrays.oi.getLastD 0 - arrays.oi.headD 0

/-- The volume_change quantity (line 38): volume[-1] - volume[0]. -/
def volumeChange (arrays : ArrayBundle) : ℤ :=
  arrays.volume.getLastD 0 - arrays.volume.headD 0

/-- The price_change_pct quantity (line 35): (ltp[-1] - ltp[0]) / ltp[0] * 100
when ltp[0] > 0, else 0. -/
def priceChangePct (arrays : ArrayBundle) : ℚ :=
  if arrays.ltp.headD 0 > 0 then
    (arrays.ltp.getLastD 0 - arrays.ltp.headD 0) / arrays.ltp.headD 0 * 100
  else 0

/-- Scenario B input of the spec: ltp [100.0, 102.0], oi [10000, 4000],
volume [1000, 4000], no further columns populated. -/
def scenarioB : ArrayBundle := ⟨[100, 102], [10000, 4000], [1000, 4000], [], [], [], [], [], [], [], []⟩

/-- Scenario E input of the spec: oi [100000, 125000], no volume data, no
depth data. -/
def scenarioE : ArrayBundle := ⟨[], [100000, 125000], [], [], [], [], [], [], [], [], []⟩

/-- Scenario F history: component contributions +20 (two bullish patterns),
+30 (panic buy), +20 (mean imbalance ratio 0.4), +14 (latest momentum score
85) and +30 (two bullish whales), summing to 114. -/
def scenarioF : PGData :=
  ⟨[⟨"Bullish"⟩, ⟨"Bullish"⟩], [⟨"Buy"⟩], [⟨2/5⟩], [⟨85⟩], [⟨"Bullish"⟩, ⟨"Bullish"⟩]⟩

/-- A greeks window whose iv moves 0.012 over 60 seconds: the per-second iv
rate 0.0002 is below the 0.0005 threshold while delta and gamma are flat. -/
def ivSubThresholdBundle : ArrayBundle :=
  ⟨[], [], [], [], [], [1/2, 1/2], [1/100, 1/100], [-10, -10], [20, 20 + 3/250], [], []⟩

/-- A greeks window with all four greeks columns flat over two points. -/
def flatGreeksBundle : ArrayBundle :=
  ⟨[], [], [], [], [], [1/2, 1/2], [1/100, 1/100], [-10, -10], [20, 20], [], []⟩

/-- A window with a single tick in every column. -/
def onePointBundle : ArrayBundle :=
  ⟨[100], [5000], [700], [10], [20], [1/2], [1/100], [-10], [20], [], []⟩

/-- The empty window: every column empty, as get_arrays produces for an empty
tick list. -/
def emptyBundle : ArrayBundle := ⟨[], [], [], [], [], [], [], [], [], [], []⟩

/-- A flat-price window that reaches the directional branch of
analyze_oi_pattern: price unchanged, oi down 7000, volume up 4000. -/
def flatPriceBundle : ArrayBundle :=
  ⟨[100, 100], [10000, 3000], [1000, 5000], [], [], [], [], [], [], [], []⟩

/-- rounding to two decimals is monotone. -/
theorem round2_mono {a b : ℚ} (h : a ≤ b) : round2 a ≤ round2 b := by
  unfold round2
  have hf : (⌊a * 100 + 1/2⌋ : ℤ) ≤ ⌊b * 100 + 1/2⌋ :=
    Int.floor_mono (by linarith)
  rw [round_eq, round_eq]
  have : ((⌊a * 100 + 1/2⌋ : ℤ) : ℚ) ≤ ((⌊b * 100 + 1/2⌋ : ℤ) : ℚ) := by
    exact_mod_cast hf
  linarith

/-- rounding to two decimals fixes 100. -/
theorem round2_hundred : round2 100 = 100 := by
  unfold round2
  norm_num

/-- rounding to two decimals fixes -100. -/
theorem round2_neg_hundred : round2 (-100) = -100 := by
  unfold round2
  rw [show ((-100 : ℚ) * 100) = ((-10000 : ℤ) : ℚ) by norm_num, round_intCast]
  norm_num

/-- C1.  The claim asserts that on Scenario B the signal is the string
"PANIC BUY".  The source (pattern_detector.py line 57) emits the signal with
a leading rocket emoji, so the claim as stated is false on Scenario B. -/
theorem panic_signal_scenarioB_counterexample :
    (analyze_oi_pattern scenarioB 500 1000 (-5000) 1 (1/20) 2).signal ≠ "PANIC BUY" ∧
    (analyze_oi_pattern scenarioB 500 1000 (-5000) 1 (1/20) 2).signal = "🚀 PANIC BUY" := by
  have h : (analyze_oi_pattern scenarioB 500 1000 (-5000) 1 (1/20) 2).signal = "🚀 PANIC BUY" := by
    norm_num [analyze_oi_pattern, scenarioB]
  exact ⟨by rw [h]; decide, h⟩

/-- C1 (amended).  For every window of at least 2 ticks whose derived
oi change is below -5000, price change percentage above 1.0 and volume change
above 1000 * 2.0, analyze_oi_pattern classifies Panic with strict priority
over the Low Volume, Churn and Directional steps: the result is pattern
"Panic (Short Covering)", signal "🚀 PANIC BUY" (the spec's "PANIC BUY"
prefixed by the source's rocket emoji), is_panic true - whatever the other
branch conditions would have said.  Scenario B produces exactly that result. -/
theorem panic_priority_classification :
    (∀ arrays : ArrayBundle, 2 ≤ arrays.ltp.length →
      oiChange arrays < -5000 → priceChangePct arrays > 1 →
      (volumeChange arrays : ℚ) > (1000 : ℚ) * 2 →
      (analyze_oi_pattern arrays 500 1000 (-5000) 1 (1/20) 2).pattern = "Panic (Short Covering)" ∧
      (analyze_oi_pattern arrays 500 1000 (-5000) 1 (1/20) 2).signal = "🚀 PANIC BUY" ∧
      (analyze_oi_pattern arrays 500 1000 (-5000) 1 (1/20) 2).is_panic = true) ∧
    analyze_oi_pattern scenarioB 500 1000 (-5000) 1 (1/20) 2 =
      ⟨"Panic (Short Covering)", "🚀 PANIC BUY", true, 2, -6000, 3000, 102, 2, 0⟩ := by
  constructor
  · intro arrays hlen h1 h2 h3
    unfold oiChange at h1
    unfold priceChangePct at h2
    unfold volumeChange at h3
    have hguard : ¬ arrays.ltp.length < 2 := by omega
    simp only [analyze_oi_pattern, hguard, if_false]
    rw [if_pos ⟨h1, by exact_mod_cast h2, by exact_mod_cast h3⟩]
    exact ⟨rfl, rfl, rfl⟩
  · norm_num [analyze_oi_pattern, scenarioB]

/-- C1 witness: Scenario B satisfies every hypothesis of the amended panic
theorem and the classification follows by applying it there. -/
theorem panic_priority_classification_witness :
    2 ≤ scenarioB.ltp.length ∧ oiChange scenarioB < -5000 ∧
    priceChangePct scenarioB > 1 ∧ (volumeChange scenarioB : ℚ) > (1000 : ℚ) * 2 ∧
    (analyze_oi_pattern scenarioB 500 1000 (-5000) 1 (1/20) 2).is_panic = true := by
  have h1 : 2 ≤ scenarioB.ltp.length := by norm_num [scenarioB]
  have h2 : oiChange scenarioB < -5000 := by norm_num [oiChange, scenarioB]
  have h3 : priceChangePct scenarioB > 1 := by norm_num [priceChangePct, scenarioB]
  have h4 : (volumeChange scenarioB : ℚ) > (1000 : ℚ) * 2 := by
    norm_num [volumeChange, scenarioB]
  exact ⟨h1, h2, h3, h4, (panic_priority_classification.1 scenarioB h1 h2 h3 h4).2.2⟩

/-- C2.  The claim asserts the iv contribution is linearly interpolated below
its threshold like delta and gamma.  On a window whose only motion is an iv
rate of 0.0002/s the claimed formula yields momentum score 54 while the
source (greeks_analyzer.py lines 79-80, no else-branch) yields 50. -/
theorem greeks_iv_no_interpolation_counterexample :
    (analyze_greeks_momentum ivSubThresholdBundle 60).momentum_score = 50 ∧
    specMomentumScore ivSubThresholdBundle 60 = 54 ∧
    (analyze_greeks_momentum ivSubThresholdBundle 60).momentum_score ≠
      specMomentumScore ivSubThresholdBundle 60 := by
  refine ⟨?_, ?_, ?_⟩ <;>
    norm_num [analyze_greeks_momentum, specMomentumScore, ivSubThresholdBundle,
      deltaContrib, gammaContrib, ivContribSpec, qsign, greeksDefaultResult,
      abs_div, abs_one, Nat.abs_ofNat]

/-- C2 (amended).  For every window with at least 2 delta points over a
nonzero duration, the momentum score is 50 plus the delta contribution
(threshold 0.001, weight 20, interpolated below threshold), plus the gamma
contribution (threshold 0.0001, weight 15, interpolated below threshold),
plus the iv contribution (threshold 0.0005, weight 10, full signed weight at
or above threshold and 0 below it - no interpolation), clamped to [0, 100]. -/
theorem greeks_momentum_score_formula (arrays : ArrayBundle) (d : ℚ)
    (hlen : 2 ≤ arrays.delta.length) :
    (analyze_greeks_momentum arrays d).momentum_score =
      max 0 (min 100
        (50 + deltaContrib ((arrays.delta.getLastD 0 - arrays.delta.headD 0) / d)
            + gammaContrib ((arrays.gamma.getLastD 0 - arrays.gamma.headD 0) / d)
            + ivContrib ((arrays.iv.getLastD 0 - arrays.iv.headD 0) / d))) := by
  have hguard : ¬ arrays.delta.length < 2 := by omega
  simp only [analyze_greeks_momentum, hguard, if_false, deltaContrib, gammaContrib, ivContrib]
  split_ifs <;> ring_nf

/-- C2 witness: the amended score formula evaluated on the sub-threshold iv
window, whose delta column has 2 points. -/
theorem greeks_momentum_score_formula_witness :
    2 ≤ ivSubThresholdBundle.delta.length ∧
    (analyze_greeks_momentum ivSubThresholdBundle 60).momentum_score =
      max 0 (min 100
        (50 + deltaContrib ((ivSubThresholdBundle.delta.getLastD 0 - ivSubThresholdBundle.delta.headD 0) / 60)
            + gammaContrib ((ivSubThresholdBundle.gamma.getLastD 0 - ivSubThresholdBundle.gamma.headD 0) / 60)
            + ivContrib ((ivSubThresholdBundle.iv.getLastD 0 - ivSubThresholdBundle.iv.headD 0) / 60))) :=
  ⟨by norm_num [ivSubThresholdBundle],
   greeks_momentum_score_formula ivSubThresholdBundle 60 (by norm_num [ivSubThresholdBundle])⟩

/-- C3.  The claim asserts the short-window default momentum score is 50; on
a one-point window the source default dictionary (greeks_analyzer.py line 26)
reports momentum score 0.0. -/
theorem greeks_default_score_counterexample :
    onePointBundle.delta.length < 2 ∧
    (analyze_greeks_momentum onePointBundle 60).momentum_score = 0 ∧
    (analyze_greeks_momentum onePointBundle 60).momentum_score ≠ 50 := by
  refine ⟨by norm_num [onePointBundle], ?_, ?_⟩ <;>
    norm_num [analyze_greeks_momentum, onePointBundle, greeksDefaultResult]

/-- C3 (amended).  For every window whose delta column has fewer than 2
points, analyze_greeks_momentum returns the default result: momentum score
0.0 (not 50), momentum type "Neutral", signal "WAIT", and every velocity and
acceleration field 0. -/
theorem greeks_insufficient_data_default (arrays : ArrayBundle) (d : ℚ)
    (hlen : arrays.delta.length < 2) :
    analyze_greeks_momentum arrays d = greeksDefaultResult := by
  simp only [analyze_greeks_momentum, hlen, if_true]

/-- C3 witness: the empty window has fewer than 2 delta points and evaluates
to the zero-score default. -/
theorem greeks_insufficient_data_default_witness :
    emptyBundle.delta.length < 2 ∧
    analyze_greeks_momentum emptyBundle 60 = greeksDefaultResult :=
  ⟨by norm_num [emptyBundle],
   greeks_insufficient_data_default emptyBundle 60 (by norm_num [emptyBundle])⟩

/-- C4.  The claim - the spec's per-instrument error isolation - names the
intended behavior, and the code as written cannot exhibit it: the fetch step
of the per-instrument loop calls the undefined
MarketDataProcessor.fetch_ticks_range, so every instrument's processing
raises at its first step, and with no try/except inside the loop the error
reaches the handler wrapping the whole while-loop.  Evaluated at a cycle
that discovers streams A and B: the cycle aborts at A, B is never processed,
and a following cycle that would discover C never runs - against the claim's
skip-one-and-continue behavior. -/
theorem cycle_fetch_raises_aborts_loop :
    (∀ (k : String) (rest : List String), runCycle (k :: rest) = Except.error k) ∧
    runCycle ["stream:A", "stream:B"] = Except.error "stream:A" ∧
    runLoop [["stream:A", "stream:B"], ["stream:C"]] = [] :=
  ⟨fun _ _ => rfl, rfl, rfl⟩

/-- C5.  The claim asserts the Scenario F sentiment label is the string
"Extreme Bullish".  The source label (sentiment_analyzer.py line 86) carries
a trailing rocket emoji, so the claim as stated is false on Scenario F. -/
theorem sentiment_label_scenarioF_counterexample :
    (analyze_market_sentiment scenarioF 100).sentiment = "Extreme Bullish 🚀" ∧
    (analyze_market_sentiment scenarioF 100).sentiment ≠ "Extreme Bullish" := by
  have h : (analyze_market_sentiment scenarioF 100).sentiment = "Extreme Bullish 🚀" := by
    norm_num [analyze_market_sentiment, scenarioF, patternContrib, whaleContrib,
      listMean, round2, strIn, charsHave, charsStart]
  exact ⟨h, by rw [h]; decide⟩

/-- C5 (amended).  For every history and ltp the reported sentiment score is
the rounding of the clamp to [-100, 100] of the plain sum of the five
weighted contributions - sum first, one clamp at the end - and therefore
always lies in [-100, 100].  On Scenario F the contributions +20, +30, +20,
+14, +30 sum to 114, the reported score is exactly 100 and the label is
"Extreme Bullish 🚀" (the spec's "Extreme Bullish" with the source's
trailing emoji). -/
theorem sentiment_sum_then_clamp :
    (∀ (pg : PGData) (ltp : ℚ),
      (analyze_market_sentiment pg ltp).sentiment_score =
        round2 (max (-100) (min 100
          ((patternContrib pg : ℚ) + panicContrib pg + imbContrib pg +
            greeksContrib pg + (whaleContrib pg : ℚ)))) ∧
      -100 ≤ (analyze_market_sentiment pg ltp).sentiment_score ∧
      (analyze_market_sentiment pg ltp).sentiment_score ≤ 100) ∧
    (analyze_market_sentiment scenarioF 100).sentiment_score = 100 ∧
    (analyze_market_sentiment scenarioF 100).sentiment = "Extreme Bullish 🚀" := by
  constructor
  · intro pg ltp
    have hform : (analyze_market_sentiment pg ltp).sentiment_score =
        round2 (max (-100) (min 100
          ((patternContrib pg : ℚ) + panicContrib pg + imbContrib pg +
            greeksContrib pg + (whaleContrib pg : ℚ)))) := by
      simp only [analyze_market_sentiment, panicContrib, imbContrib, greeksContrib]
      cases hp : pg.panic <;> cases hg : pg.greeks <;>
        by_cases him : pg.imbalance = [] <;>
        simp only [him, if_true, if_false, ite_true, ite_false] <;>
        (try split_ifs) <;> ring_nf
    refine ⟨hform, ?_, ?_⟩
    · rw [hform]
      calc (-100 : ℚ) = round2 (-100) := round2_neg_hundred.symm
        _ ≤ _ := round2_mono (le_max_left _ _)
    · rw [hform]
      calc round2 _ ≤ round2 100 :=
            round2_mono (max_le (by norm_num) (min_le_left _ _))
        _ = 100 := round2_hundred
  · constructor <;>
      norm_num [analyze_market_sentiment, scenarioF, patternContrib, whaleContrib,
        listMean, round2, strIn, charsHave, charsStart]

/-- A single-tick order book window with tbq 2000, tsq 1000, ltp 100. -/
def imbWitnessBundle : ArrayBundle := ⟨[100], [], [], [2000], [1000], [], [], [], [], [], []⟩

/-- C6.  For every window with populated tbq and tsq columns whose latest
values are non-negative: total 0 gives ratio 0 with signal "Neutral",
positive total gives ratio (tbq - tsq) / (tbq + tsq), the ratio always lies
in [-1, 1], and exchanging the tbq and tsq columns negates it. -/
theorem imbalance_ratio_properties (arrays : ArrayBundle)
    (hb : arrays.tbq ≠ []) (hs : arrays.tsq ≠ [])
    (hnb : 0 ≤ arrays.tbq.getLastD 0) (hns : 0 ≤ arrays.tsq.getLastD 0) :
    (arrays.tbq.getLastD 0 + arrays.tsq.getLastD 0 = 0 →
      (analyze_order_book_imbalance arrays).imbalance_ratio = 0 ∧
      (analyze_order_book_imbalance arrays).signal = "Neutral") ∧
    (0 < arrays.tbq.getLastD 0 + arrays.tsq.getLastD 0 →
      (analyze_order_book_imbalance arrays).imbalance_ratio =
        ((arrays.tbq.getLastD 0 - arrays.tsq.getLastD 0 : ℤ) : ℚ) /
          ((arrays.tbq.getLastD 0 + arrays.tsq.getLastD 0 : ℤ) : ℚ)) ∧
    -1 ≤ (analyze_order_book_imbalance arrays).imbalance_ratio ∧
    (analyze_order_book_imbalance arrays).imbalance_ratio ≤ 1 ∧
    (analyze_order_book_imbalance (swapQty arrays)).imbalance_ratio =
      -(analyze_order_book_imbalance arrays).imbalance_ratio := by
  have hne : ¬ (arrays.tbq.length = 0 ∨ arrays.tsq.length = 0) := by
    simp [List.length_eq_zero, hb, hs]
  have hneS : ¬ (arrays.tsq.length = 0 ∨ arrays.tbq.length = 0) := by
    simp [List.length_eq_zero, hb, hs]
  by_cases h0 : arrays.tbq.getLastD 0 + arrays.tsq.getLastD 0 = 0
  · have h0S : arrays.tsq.getLastD 0 + arrays.tbq.getLastD 0 = 0 := by omega
    refine ⟨fun _ => ?_, fun hlt => absurd hlt (by omega), ?_, ?_, ?_⟩
    · simp only [analyze_order_book_imbalance, if_neg hne, if_pos h0]
      simp
    · simp only [analyze_order_book_imbalance, if_neg hne, if_pos h0]
      norm_num
    · simp only [analyze_order_book_imbalance, if_neg hne, if_pos h0]
      norm_num
    · simp only [analyze_order_book_imbalance, swapQty, if_neg hne, if_neg hneS,
        if_pos h0, if_pos h0S]
      norm_num
  · have hlt : 0 < arrays.tbq.getLastD 0 + arrays.tsq.getLastD 0 := by omega
    have h0S : ¬ (arrays.tsq.getLastD 0 + arrays.tbq.getLastD 0 = 0) := by omega
    have hratio : (analyze_order_book_imbalance arrays).imbalance_ratio =
        ((arrays.tbq.getLastD 0 - arrays.tsq.getLastD 0 : ℤ) : ℚ) /
          ((arrays.tbq.getLastD 0 + arrays.tsq.getLastD 0 : ℤ) : ℚ) := by
      simp only [analyze_order_book_imbalance, if_neg hne, if_neg h0]
    have hratioS : (analyze_order_book_imbalance (swapQty arrays)).imbalance_ratio =
        ((arrays.tsq.getLastD 0 - arrays.tbq.getLastD 0 : ℤ) : ℚ) /
          ((arrays.tsq.getLastD 0 + arrays.tbq.getLastD 0 : ℤ) : ℚ) := by
      simp only [analyze_order_book_imbalance, swapQty, if_neg hneS, if_neg h0S]
    have hpos : (0 : ℚ) < ((arrays.tbq.getLastD 0 + arrays.tsq.getLastD 0 : ℤ) : ℚ) := by
      exact_mod_cast hlt
    have hcb : (0 : ℚ) ≤ (arrays.tbq.getLastD 0 : ℚ) := by exact_mod_cast hnb
    have hcs : (0 : ℚ) ≤ (arrays.tsq.getLastD 0 : ℚ) := by exact_mod_cast hns
    refine ⟨fun h00 => absurd h00 h0, fun _ => hratio, ?_, ?_, ?_⟩
    · rw [hratio, le_div_iff₀ hpos]
      push_cast
      linarith
    · rw [hratio, div_le_one hpos]
      push_cast
      linarith
    · rw [hratioS, hratio]
      push_cast
      have hne : (arrays.tbq.getLastD 0 : ℚ) + (arrays.tsq.getLastD 0 : ℚ) ≠ 0 := by
        intro hc
        exact h0 (by exact_mod_cast hc)
      field_simp
      ring

/-- C6 witness: the properties at tbq 2000, tsq 1000, by the imbalance
theorem. -/
theorem imbalance_ratio_properties_witness :
    imbWitnessBundle.tbq ≠ [] ∧ imbWitnessBundle.tsq ≠ [] ∧
    0 ≤ imbWitnessBundle.tbq.getLastD 0 ∧ 0 ≤ imbWitnessBundle.tsq.getLastD 0 ∧
    (-1 ≤ (analyze_order_book_imbalance imbWitnessBundle).imbalance_ratio ∧
      (analyze_order_book_imbalance imbWitnessBundle).imbalance_ratio ≤ 1) ∧
    (analyze_order_book_imbalance (swapQty imbWitnessBundle)).imbalance_ratio =
      -(analyze_order_book_imbalance imbWitnessBundle).imbalance_ratio := by
  have h := imbalance_ratio_properties imbWitnessBundle (by decide) (by decide)
    (by decide) (by decide)
  exact ⟨by decide, by decide, by decide, by decide, ⟨h.2.2.1, h.2.2.2.1⟩, h.2.2.2.2⟩

/-- A window whose oi climbs by 3000 in one tick. -/
def whaleWitnessBundle : ArrayBundle := ⟨[], [0, 3000], [], [], [], [], [], [], [], [], []⟩

/-- C7.  For every window with at least 2 oi points, the alert list contains
an "OI Jump" alert exactly when the maximum consecutive oi difference is at
least 2000, and that alert carries signal "Bullish" and the whale type band
of that maximum (Small from 2000, Medium from 5000, Large from 10000, Mega
from 20000); symmetrically an "OI Drop" alert exactly when the minimum
consecutive difference is at most -2000, with signal "Bearish".  Scenario E
(oi [100000, 125000], no volume data, no depth data) yields exactly one
alert: Mega Whale / OI Jump / Bullish. -/
theorem whale_oi_jump_drop_iff :
    (∀ arrays : ArrayBundle, 2 ≤ arrays.oi.length →
      ((analyze_whale_activity arrays).filter (fun al => al.alert_type == "OI Jump") =
        if oiMaxJump arrays ≥ 2000 then
          [⟨whaleBandJump (oiMaxJump arrays), "OI Jump", (oiMaxJump arrays : ℚ), "Bullish"⟩]
        else []) ∧
      ((analyze_whale_activity arrays).filter (fun al => al.alert_type == "OI Drop") =
        if oiMinDrop arrays ≤ -2000 then
          [⟨whaleBandDrop (oiMinDrop arrays), "OI Drop", (oiMinDrop arrays : ℚ), "Bearish"⟩]
        else [])) ∧
    analyze_whale_activity scenarioE = [⟨"Mega Whale", "OI Jump", 25000, "Bullish"⟩] := by
  constructor
  · intro arrays h2
    constructor <;>
      · simp only [analyze_whale_activity, List.filter_append, h2, true_and]
        split_ifs <;> simp
  · norm_num [analyze_whale_activity, scenarioE, oiMaxJump, oiMinDrop, avgVolDiff,
      maxVolDiff, listDiffs, listMaxD, listMinD, listMean, whaleBandJump, whaleBandDrop]

/-- C7 witness: a 3000 oi jump window satisfies the length hypothesis and the
OI Jump filter equation follows by the whale theorem. -/
theorem whale_oi_jump_drop_iff_witness :
    2 ≤ whaleWitnessBundle.oi.length ∧
    ((analyze_whale_activity whaleWitnessBundle).filter
        (fun al => al.alert_type == "OI Jump") =
      if oiMaxJump whaleWitnessBundle ≥ 2000 then
        [⟨whaleBandJump (oiMaxJump whaleWitnessBundle), "OI Jump",
          (oiMaxJump whaleWitnessBundle : ℚ), "Bullish"⟩]
      else []) :=
  ⟨by norm_num [whaleWitnessBundle],
   (whale_oi_jump_drop_iff.1 whaleWitnessBundle (by norm_num [whaleWitnessBundle])).1⟩

/-- C10.  For every window, each of the five alert sites of
analyze_whale_activity fires at most once, so the alert list holds at most
one alert per alert type and has length at most 5. -/
theorem whale_alerts_at_most_one_each (arrays : ArrayBundle) :
    (analyze_whale_activity arrays).length ≤ 5 ∧
    ((analyze_whale_activity arrays).filter (fun al => al.alert_type == "OI Jump")).length ≤ 1 ∧
    ((analyze_whale_activity arrays).filter (fun al => al.alert_type == "OI Drop")).length ≤ 1 ∧
    ((analyze_whale_activity arrays).filter (fun al => al.alert_type == "Volume Spike")).length ≤ 1 ∧
    ((analyze_whale_activity arrays).filter (fun al => al.alert_type == "Bid Wall")).length ≤ 1 ∧
    ((analyze_whale_activity arrays).filter (fun al => al.alert_type == "Ask Wall")).length ≤ 1 := by
  refine ⟨?_, ?_, ?_, ?_, ?_, ?_⟩ <;>
    · simp only [analyze_whale_activity, List.filter_append, List.length_append]
      split_ifs <;> simp

/-- C8.  For every window of at least 2 ticks whose first and last prices
coincide and any threshold parameters, analyze_oi_pattern never produces a
directional pattern: the outcome is Panic, Low Volume, or the Neutral/Churn
default that the directional fallthrough leaves in place. -/
theorem pattern_flat_price_no_directional (arrays : ArrayBundle)
    (oi_threshold volume_threshold min_oi_drop : ℤ)
    (min_price_jump_pct min_delta_change min_volume_multiplier : ℚ)
    (hlen : 2 ≤ arrays.ltp.length)
    (heq : arrays.ltp.headD 0 = arrays.ltp.getLastD 0) :
    ((analyze_oi_pattern arrays oi_threshold volume_threshold min_oi_drop
        min_price_jump_pct min_delta_change min_volume_multiplier).pattern ≠ "Long Buildup" ∧
     (analyze_oi_pattern arrays oi_threshold volume_threshold min_oi_drop
        min_price_jump_pct min_delta_change min_volume_multiplier).pattern ≠ "Short Covering" ∧
     (analyze_oi_pattern arrays oi_threshold volume_threshold min_oi_drop
        min_price_jump_pct min_delta_change min_volume_multiplier).pattern ≠ "Short Buildup" ∧
     (analyze_oi_pattern arrays oi_threshold volume_threshold min_oi_drop
        min_price_jump_pct min_delta_change min_volume_multiplier).pattern ≠ "Long Unwinding") ∧
    (((analyze_oi_pattern arrays oi_threshold volume_threshold min_oi_drop
        min_price_jump_pct min_delta_change min_volume_multiplier).pattern = "Panic (Short Covering)" ∧
      (analyze_oi_pattern arrays oi_threshold volume_threshold min_oi_drop
        min_price_jump_pct min_delta_change min_volume_multiplier).signal = "🚀 PANIC BUY") ∨
     ((analyze_oi_pattern arrays oi_threshold volume_threshold min_oi_drop
        min_price_jump_pct min_delta_change min_volume_multiplier).pattern = "Low Volume" ∧
      (analyze_oi_pattern arrays oi_threshold volume_threshold min_oi_drop
        min_price_jump_pct min_delta_change min_volume_multiplier).signal = "Skip") ∨
     ((analyze_oi_pattern arrays oi_threshold volume_threshold min_oi_drop
        min_price_jump_pct min_delta_change min_volume_multiplier).pattern = "Neutral" ∧
      (analyze_oi_pattern arrays oi_threshold volume_threshold min_oi_drop
        min_price_jump_pct min_delta_change min_volume_multiplier).signal = "Churn")) := by
  have hguard : ¬ arrays.ltp.length < 2 := by omega
  have hpc : arrays.ltp.getLastD 0 - arrays.ltp.headD 0 = 0 := by
    rw [heq]; ring
  simp only [analyze_oi_pattern, if_neg hguard, hpc]
  split_ifs <;> simp_all

/-- C8 witness: the flat-price window with oi down 7000 and volume up 4000
reaches the directional step and falls through to Neutral/Churn, by the
flat-price theorem. -/
theorem pattern_flat_price_no_directional_witness :
    2 ≤ flatPriceBundle.ltp.length ∧
    flatPriceBundle.ltp.headD 0 = flatPriceBundle.ltp.getLastD 0 ∧
    ((analyze_oi_pattern flatPriceBundle 500 1000 (-5000) 1 (1/20) 2).pattern ≠ "Long Buildup" ∧
     (analyze_oi_pattern flatPriceBundle 500 1000 (-5000) 1 (1/20) 2).pattern ≠ "Short Covering" ∧
     (analyze_oi_pattern flatPriceBundle 500 1000 (-5000) 1 (1/20) 2).pattern ≠ "Short Buildup" ∧
     (analyze_oi_pattern flatPriceBundle 500 1000 (-5000) 1 (1/20) 2).pattern ≠ "Long Unwinding") := by
  refine ⟨by norm_num [flatPriceBundle], by norm_num [flatPriceBundle], ?_⟩
  exact (pattern_flat_price_no_directional flatPriceBundle 500 1000 (-5000) 1 (1/20) 2
    (by norm_num [flatPriceBundle]) (by norm_num [flatPriceBundle])).1

/-- Every frame sent by one update_subscriptions call keeps its keys inside
the symmetric difference of the old active set and the new target, so a key
in neither set never appears in a diffed frame. -/
theorem update_frames_no_key (active : Finset String) (T : List String)
    (g k : String) (ha : k ∉ active) (ht : k ∉ T) :
    ∀ f ∈ (update_subscriptions active T g).1, k ∉ f.instrumentKeys := by
  intro f hf
  simp only [update_subscriptions] at hf
  rcases List.mem_append.mp hf with h | h
  · split_ifs at h with hc
    · simp only [List.mem_singleton] at h
      subst h
      simp only [Finset.mem_sdiff]
      rintro ⟨h1, -⟩
      exact ha h1
    · exact absurd h (List.not_mem_nil f)
  · split_ifs at h with hc
    · simp only [List.mem_singleton] at h
      subst h
      simp only [Finset.mem_sdiff]
      rintro ⟨h1, -⟩
      exact ht (List.mem_toFinset.mp h1)
    · exact absurd h (List.not_mem_nil f)

/-- No frame produced by a run of update calls whose targets avoid a key, and
starting from an active set avoiding it, carries that key. -/
theorem runUpdates_no_key (k : String) :
    ∀ (updates : List (List String)) (active : Finset String), k ∉ active →
      (∀ u ∈ updates, k ∉ u) →
      ∀ f ∈ runUpdates active updates, k ∉ f.instrumentKeys := by
  intro updates
  induction updates with
  | nil => intro active _ _ f hf; simp [runUpdates] at hf
  | cons t ts ih =>
    intro active ha hu f hf
    simp only [runUpdates] at hf
    rcases List.mem_append.mp hf with h | h
    · exact update_frames_no_key active t _ k ha (hu t (List.mem_cons_self t ts)) f h
    · exact ih (t.toFinset) (fun hm => hu t (List.mem_cons_self t ts) (List.mem_toFinset.mp hm))
        (fun u hu2 => hu u (List.mem_cons_of_mem t hu2)) f h

/-- C9.  Each update_subscriptions call sends at most two control frames: an
unsubscribe frame carrying exactly active - target when non-empty, then a
subscribe frame carrying exactly target - active when non-empty, and the
active set becomes the target afterwards; a key outside both sets (as the
always-on index key is) appears in neither frame.  Over a whole manager run
whose targets never contain the index key, the only frame ever carrying the
index key is the single initial subscribe of connection setup, and no
unsubscribe frame ever carries it. -/
theorem subscription_diff_protocol :
    (∀ (active : Finset String) (T : List String) (g : String),
      (update_subscriptions active T g).1.length ≤ 2 ∧
      (update_subscriptions active T g).2 = T.toFinset ∧
      (∀ f ∈ (update_subscriptions active T g).1, f.method = "unsub" →
        f.instrumentKeys = active \ T.toFinset) ∧
      (∀ f ∈ (update_subscriptions active T g).1, f.method = "sub" →
        f.instrumentKeys = T.toFinset \ active) ∧
      ((∃ f ∈ (update_subscriptions active T g).1, f.method = "unsub") ↔
        active \ T.toFinset ≠ ∅) ∧
      ((∃ f ∈ (update_subscriptions active T g).1, f.method = "sub") ↔
        T.toFinset \ active ≠ ∅) ∧
      (index_key ∉ active → index_key ∉ T →
        ∀ f ∈ (update_subscriptions active T g).1, index_key ∉ f.instrumentKeys)) ∧
    (∀ (option_keys : List String) (updates : List (List String)),
      index_key ∉ option_keys → (∀ u ∈ updates, index_key ∉ u) →
      ((managerFrames option_keys updates).filter
          (fun f => decide (index_key ∈ f.instrumentKeys)) =
        [⟨"whale_hunter_index", "sub", some "full", {index_key}⟩]) ∧
      (∀ f ∈ managerFrames option_keys updates, f.method = "unsub" →
        index_key ∉ f.instrumentKeys)) := by
  constructor
  · intro active T g
    refine ⟨?_, rfl, ?_, ?_, ?_, ?_, fun ha ht => update_frames_no_key active T g _ ha ht⟩
    · simp only [update_subscriptions]
      split_ifs <;> simp
    · intro f hf hm
      simp only [update_subscriptions] at hf
      rcases List.mem_append.mp hf with h | h
      · split_ifs at h with hc
        · simp only [List.mem_singleton] at h
          subst h
          rfl
        · exact absurd h (List.not_mem_nil f)
      · split_ifs at h with hc
        · simp only [List.mem_singleton] at h
          subst h
          exact absurd hm (by simp)
        · exact absurd h (List.not_mem_nil f)
    · intro f hf hm
      simp only [update_subscriptions] at hf
      rcases List.mem_append.mp hf with h | h
      · split_ifs at h with hc
        · simp only [List.mem_singleton] at h
          subst h
          exact absurd hm (by simp)
        · exact absurd h (List.not_mem_nil f)
      · split_ifs at h with hc
        · simp only [List.mem_singleton] at h
          subst h
          rfl
        · exact absurd h (List.not_mem_nil f)
    · constructor
      · rintro ⟨f, hf, hm⟩
        simp only [update_subscriptions] at hf
        rcases List.mem_append.mp hf with h | h
        · split_ifs at h with hc
          · exact hc
          · exact absurd h (List.not_mem_nil f)
        · split_ifs at h with hc
          · simp only [List.mem_singleton] at h
            subst h
            exact absurd hm (by simp)
          · exact absurd h (List.not_mem_nil f)
      · intro hne
        refine ⟨⟨g, "unsub", none, active \ T.toFinset⟩, ?_, rfl⟩
        simp [update_subscriptions, hne]
    · constructor
      · rintro ⟨f, hf, hm⟩
        simp only [update_subscriptions] at hf
        rcases List.mem_append.mp hf with h | h
        · split_ifs at h with hc
          · simp only [List.mem_singleton] at h
            subst h
            exact absurd hm (by simp)
          · exact absurd h (List.not_mem_nil f)
        · split_ifs at h with hc
          · exact hc
          · exact absurd h (List.not_mem_nil f)
      · intro hne
        refine ⟨⟨g, "sub", some "full_d30", T.toFinset \ active⟩, ?_, rfl⟩
        simp [update_subscriptions, hne]
  · intro option_keys updates hok hupd
    have hrest : ∀ f ∈ (subscribe_initial option_keys).1.tail ++
        runUpdates (subscribe_initial option_keys).2 updates,
        index_key ∉ f.instrumentKeys := by
      intro f hf
      rcases List.mem_append.mp hf with h | h
      · by_cases hne : option_keys ≠ []
        · simp only [subscribe_initial, if_pos hne, List.tail_cons] at h
          exact update_frames_no_key ∅ option_keys _ index_key (by simp) hok f h
        · simp only [subscribe_initial, if_neg hne, List.tail_cons] at h
          simp at h
      · by_cases hne : option_keys ≠ []
        · simp only [subscribe_initial, if_pos hne] at h
          exact runUpdates_no_key index_key updates _
            (by simpa [update_subscriptions] using hok) hupd f h
        · simp only [subscribe_initial, if_neg hne] at h
          exact runUpdates_no_key index_key updates ∅ (by simp) hupd f h
    have hshape : managerFrames option_keys updates =
        (⟨"whale_hunter_index", "sub", some "full", {index_key}⟩ : Frame) ::
          ((subscribe_initial option_keys).1.tail ++
            runUpdates (subscribe_initial option_keys).2 updates) := by
      by_cases hne : option_keys ≠ [] <;>
        simp [managerFrames, subscribe_initial, hne]
    constructor
    · rw [hshape]
      simp only [List.filter_cons]
      rw [if_pos (by simp), List.filter_eq_nil_iff.mpr (by
        intro f hf
        simpa using hrest f hf)]
    · rw [hshape]
      intro f hf hm
      rcases List.mem_cons.mp hf with h | h
      · exact absurd hm (by rw [h]; decide)
      · exact hrest f h

/-- C9 witness: with active set A, B and target B, C the call sends the
unsubscribe of A and the subscribe of C and adopts the target as the new
active set; a concrete manager run with option key X then target Y mentions
the index key only in the single setup subscribe frame. -/
theorem subscription_diff_protocol_witness :
    (update_subscriptions {"A", "B"} ["B", "C"] "g").1.length ≤ 2 ∧
    (update_subscriptions {"A", "B"} ["B", "C"] "g").2 = (["B", "C"] : List String).toFinset ∧
    (∀ f ∈ (update_subscriptions {"A", "B"} ["B", "C"] "g").1,
      index_key ∉ f.instrumentKeys) ∧
    ((managerFrames ["X"] [["Y"]]).filter
        (fun f => decide (index_key ∈ f.instrumentKeys)) =
      [⟨"whale_hunter_index", "sub", some "full", {index_key}⟩]) :=
  ⟨(subscription_diff_protocol.1 {"A", "B"} ["B", "C"] "g").1,
   (subscription_diff_protocol.1 {"A", "B"} ["B", "C"] "g").2.1,
   (subscription_diff_protocol.1 {"A", "B"} ["B", "C"] "g").2.2.2.2.2.2
     (by decide) (by decide),
   (subscription_diff_protocol.2 ["X"] [["Y"]] (by decide) (by decide)).1⟩

end UpgradeUpstox
